import Mathlib

/-!
Shallow embedding of `download_bench.py`: a benchmark runner that, for each
(file descriptor, download strategy) pair, downloads a file to a temporary
path, verifies an MD5 digest, and reports throughput; the whole cross product
is run twice (directly in the main thread, then through a single-worker
thread pool).

External effects (HTTP via `requests`, subprocess exit codes and the files the
external tools write, `hashlib.md5`, `base64.b64encode`) are modelled by a
`World` record of oracle functions; the filesystem is a map from path names to
optional byte contents; wall-clock readings around a strategy invocation are
passed in as explicit start/end rationals.
-/

namespace DownloadBench

/-- Byte strings are lists of naturals (one per byte). -/
abbrev Bytes := List Nat

/-- The filesystem: a path name either holds a file with some content, or no
file exists at that path. -/
def FsState := String → Option Bytes

/-- Python exceptions that the script can raise. -/
inductive PyError where
  | netError (msg : String)
  | calledProcessError (code : Nat)
  | zeroDivisionError
  | fileNotFoundError
  deriving DecidableEq, Repr

/-- Oracles for everything the script delegates to libraries and external
binaries: the HTTP GET body per url (or a network failure), the exit code and
the destination-file content of an external subprocess per argv, the MD5
digest of a byte string (`hashlib.md5(...).digest()`), and base64 encoding
(`base64.b64encode`). -/
structure World where
  net : String → Except PyError Bytes
  procExit : List String → Nat
  procOut : List String → Bytes
  md5 : Bytes → Bytes
  b64 : Bytes → String

/-- Write (create or truncate-and-replace) the file at path `p` with `c`. -/
def fsWrite (p : String) (c : Bytes) (s : FsState) : FsState :=
  fun q => if q = p then some c else s q

/-- Append `c` to the file at path `p` (used for sequential chunk writes to an
already-opened file). -/
def fsAppend (p : String) (c : Bytes) (s : FsState) : FsState :=
  fun q => if q = p then some ((s p).getD [] ++ c) else s q

/-- `os.unlink`: remove the file at path `p`. -/
def fsUnlink (p : String) (s : FsState) : FsState :=
  fun q => if q = p then none else s q

/-- Split `xs` into chunks: `acc` is the current (reversed) partial chunk and
`k` the remaining capacity of that chunk; a fresh chunk has capacity `n`.
Models a read loop that consumes fixed-size blocks until end of input. -/
def chunkAux (n : Nat) : List Nat → List Nat → Nat → List (List Nat)
  | [], acc, _ => if acc = [] then [] else [acc.reverse]
  | x :: xs, acc, 0 => acc.reverse :: chunkAux n xs [x] (n - 1)
  | x :: xs, acc, k + 1 => chunkAux n xs (x :: acc) k

/-- Split `l` into consecutive blocks of size `n` (the last block may be
shorter), in order. Models `iter(lambda: fp.read(n), b'')`. -/
def chunksOf (n : Nat) (l : Bytes) : List Bytes :=
  chunkAux n l [] n

/-- `calc_md5`: open the file `fname`, read it in 1 MiB blocks, feed each
block to an incremental MD5 accumulator (whose absorbed-byte state after a
sequence of updates is the concatenation of the fed blocks), and return the
base64 encoding of the final digest.  Opening a missing file raises. -/
def calc_md5 (w : World) (fname : String) (s : FsState) : Except PyError String :=
  match s fname with
  | none => .error .fileNotFoundError
  | some content =>
      .ok (w.b64 (w.md5 ((chunksOf (1024 * 1024) content).foldl (· ++ ·) [])))

/-- `file_size`: return the size in bytes of the file `fname`, via the file's
length on the filesystem (`fp.seek(0, 2)`), not a bytes-read accumulator. -/
def file_size (fname : String) (s : FsState) : Except PyError Nat :=
  match s fname with
  | none => .error .fileNotFoundError
  | some content => .ok content.length

/-- Python division: raises `ZeroDivisionError` on a zero denominator. -/
def pyDiv (a b : ℚ) : Except PyError ℚ :=
  if b = 0 then .error .zeroDivisionError else .ok (a / b)

/-- A download function body: given the world, a url and a destination path,
either raises or returns a value together with the filesystem it leaves
behind (having written the retrieved content to the destination path). -/
def DownloadFunc (α : Type) := World → String → String → FsState → Except PyError (α × FsState)

/-- A `bench`-wrapped download function: additionally takes the wall-clock
readings immediately before and after the underlying call, and returns the
elapsed time `end - start` instead of the underlying return value. -/
def BenchedFunc := World → String → String → ℚ → ℚ → FsState → Except PyError (ℚ × FsState)

/-- The `bench` decorator: run the wrapped download function, discard its
return value, and return `end - start` (the wall-clock readings around the
call).  An exception from the wrapped function propagates. -/
def bench {α : Type} (download_func : DownloadFunc α) : BenchedFunc :=
  fun w url fname startT endT s =>
    match download_func w url fname s with
    | .error e => .error e
    | .ok (_, s1) => .ok (endT - startT, s1)

/-- `requests_raw_shutil`: HTTP GET with streaming, copy the raw byte stream
into the destination file. -/
def requests_raw_shutil : DownloadFunc Unit :=
  fun w url fname s =>
    match w.net url with
    | .error e => .error e
    | .ok body => .ok ((), fsWrite fname body s)

/-- `requests_chunks`: HTTP GET with streaming, iterate the body in 128 KiB
chunks, writing each chunk in turn to the destination file (opened for
writing, so first truncated to empty). -/
def requests_chunks : DownloadFunc Unit :=
  fun w url fname s =>
    match w.net url with
    | .error e => .error e
    | .ok body =>
        .ok ((), (chunksOf (128 * 1024) body).foldl
              (fun st chunk => fsAppend fname chunk st) (fsWrite fname [] s))

/-- `subprocess.check_call` of an external download tool writing to `fname`:
the tool writes its output for this argv to `fname`, and a non-zero exit
status raises `CalledProcessError`. -/
def check_call (w : World) (argv : List String) (fname : String) (s : FsState) :
    Except PyError (Unit × FsState) :=
  let s1 := fsWrite fname (w.procOut argv) s
  if w.procExit argv = 0 then .ok ((), s1)
  else .error (.calledProcessError (w.procExit argv))

/-- `wget_subprocess`: download via `wget -q -O fname url` in a subprocess. -/
def wget_subprocess : DownloadFunc Unit :=
  fun w url fname s => check_call w ["wget", "-q", "-O", fname, url] fname s

/-- `curl_subprocess`: download via `curl -s -o fname url` in a subprocess. -/
def curl_subprocess : DownloadFunc Unit :=
  fun w url fname s => check_call w ["curl", "-s", "-o", fname, url] fname s

/-- A registered benchmarked function: its `__name__` and its wrapper. -/
structure NamedFunc where
  name : String
  fn : BenchedFunc

/-- The global registry filled by the `bench` decorator, in definition
order. -/
def DOWNLOAD_FUNCTIONS : List NamedFunc :=
  [ ⟨"requests_raw_shutil", bench requests_raw_shutil⟩,
    ⟨"requests_chunks", bench requests_chunks⟩,
    ⟨"wget_subprocess", bench wget_subprocess⟩,
    ⟨"curl_subprocess", bench curl_subprocess⟩ ]

/-- A file descriptor from the static `FILES` table. -/
structure FileDesc where
  name : String
  url : String
  md5 : String
  size : String
  deriving DecidableEq, Repr

/-- The static table of files to benchmark. -/
def FILES : List FileDesc :=
  [ { name := "LC80440342016259LGN00_BQA.TIF",
      url := "https://storage.googleapis.com/gcp-public-data-landsat/LC08/PRE/044/034/LC80440342016259LGN00/LC80440342016259LGN00_BQA.TIF",
      md5 := "zqigvl5Envmi/GLc8yH51A==",
      size := "3.2MB" },
    { name := "LC80440342016259LGN00_B1.TIF",
      url := "https://storage.googleapis.com/gcp-public-data-landsat/LC08/PRE/044/034/LC80440342016259LGN00/LC80440342016259LGN00_B1.TIF",
      md5 := "835L6B5frB0zCB6s22r2Sw==",
      size := "71.26MB" },
    { name := "LC80440342016259LGN00_B8.TIF",
      url := "https://storage.googleapis.com/gcp-public-data-landsat/LC08/PRE/044/034/LC80440342016259LGN00/LC80440342016259LGN00_B8.TIF",
      md5 := "y795LrUzBwk2tL6PM01cEA==",
      size := "304.12MB" } ]

/-- The single line printed by one benchmark iteration: either the formatted
throughput line (strategy name, elapsed seconds, byte count, bytes/second) or
the MD5-mismatch diagnostic line (strategy name, file name, size label, and
both digests). -/
inductive IterOutcome where
  | throughputLine (strat : String) (elapsed : ℚ) (bytes : Nat) (speed : ℚ)
  | mismatchLine (strat fileName sizeLabel actualMd5 expectedMd5 : String)
  deriving DecidableEq, Repr

/-- `try ... finally fin`: run the body; whether it returns or raises, apply
the cleanup `fin` to the filesystem it left behind. -/
def tryFinally {α : Type} (body : FsState → Except PyError (α × FsState))
    (fin : FsState → FsState) (s : FsState) : Except PyError α × FsState :=
  match body s with
  | .ok (a, s1) => (.ok a, fin s1)
  | .error e => (.error e, fin s)

/-- `bench_download`: create a fresh (empty, closed) temporary file at
`tmpName`; then, under a `finally` that unlinks the temporary file, run the
benchmarked download function (its elapsed time is its return value), compute
the chunked MD5 of the downloaded file, and either print the mismatch
diagnostic (digest differs) or compute the file size from the filesystem,
divide by the elapsed time, and print the throughput line. -/
def bench_download (w : World) (startT endT : ℚ) (file_desc : FileDesc)
    (download_func : NamedFunc) (tmpName : String) (s : FsState) :
    Except PyError IterOutcome × FsState :=
  let s0 := fsWrite tmpName [] s
  tryFinally (fun st =>
    match download_func.fn w file_desc.url tmpName startT endT st with
    | .error e => .error e
    | .ok (total_time, s1) =>
        match calc_md5 w tmpName s1 with
        | .error e => .error e
        | .ok md5 =>
            if md5 ≠ file_desc.md5 then
              .ok (.mismatchLine download_func.name file_desc.name
                     file_desc.size md5 file_desc.md5, s1)
            else
              match file_size tmpName s1 with
              | .error e => .error e
              | .ok total_bytes =>
                  match pyDiv (total_bytes : ℚ) total_time with
                  | .error e => .error e
                  | .ok speed =>
                      .ok (.throughputLine download_func.name total_time
                             total_bytes speed, s1))
    (fsUnlink tmpName) s0

/-- `itertools.product(l1, l2)`: for each element of `l1` in order, all
elements of `l2` in order. -/
def listProd {α β : Type} (l1 : List α) (l2 : List β) : List (α × β) :=
  l1.flatMap (fun a => l2.map (fun b => (a, b)))

/-- What the script prints: section headers and per-iteration lines. -/
inductive Event where
  | header (text : String)
  | line (o : IterOutcome)
  deriving DecidableEq, Repr

/-- The first pass (`list(map(...))` in the main thread): run `bench_download`
on each pair in order, threading the filesystem and taking per-iteration
start/end clock readings from `times`; an exception from an iteration stops
the pass immediately (later pairs are not executed) and is reported as the
second component.  The first component is the list of lines printed before
the stop. -/
def runPairs (w : World) (times : Nat → ℚ × ℚ) (tmpName : String) :
    Nat → List (FileDesc × NamedFunc) → FsState →
    List IterOutcome × Option PyError × FsState
  | _, [], s => ([], none, s)
  | i, p :: rest, s =>
      match bench_download w (times i).1 (times i).2 p.1 p.2 tmpName s with
      | (.error e, s1) => ([], some e, s1)
      | (.ok out, s1) =>
          let (outs, err, s2) := runPairs w times tmpName (i + 1) rest s1
          (out :: outs, err, s2)

/-- The second pass' worker (`executor.map` with one worker): the single
worker executes every submitted task in FIFO order; a task that raises stores
its exception (and prints nothing) but does not stop the worker from running
the remaining tasks. -/
def poolTasks (w : World) (times : Nat → ℚ × ℚ) (tmpName : String) :
    Nat → List (FileDesc × NamedFunc) → FsState →
    List (Except PyError IterOutcome) × FsState
  | _, [], s => ([], s)
  | i, p :: rest, s =>
      let (r, s1) := bench_download w (times i).1 (times i).2 p.1 p.2 tmpName s
      let (rs, s2) := poolTasks w times tmpName (i + 1) rest s1
      (r :: rs, s2)

/-- The successful result of a task, if any. -/
def okOutcome : Except PyError IterOutcome → Option IterOutcome
  | .ok o => some o
  | .error _ => none

/-- The first stored exception among the task results: consuming
`executor.map`'s iterator re-raises it in the main thread. -/
def firstErr (rs : List (Except PyError IterOutcome)) : Option PyError :=
  rs.findSome? (fun r => match r with | .error e => some e | .ok _ => none)

def mainHeader : String := "=== Benchmark download in main thread ==="

def poolHeader : String := "=== Benchmark download in a single worker thread pool ==="

/-- `run_download_bench`: print the first header, run the full cross product
(`itertools.product(FILES, DOWNLOAD_FUNCTIONS)`) directly in the main thread,
then print the second header and run the same cross product again through a
single-worker pool.  If the first pass raises, the second pass never starts.
In the pool pass every task runs (and prints its line on success) because the
pool shuts down only after draining its queue, and the first stored exception
then propagates in the main thread.  Returns the printed events, the
propagating exception if any, and the final filesystem. -/
def run_download_bench (w : World) (times1 times2 : Nat → ℚ × ℚ)
    (tmpName : String) (s : FsState) :
    List Event × Option PyError × FsState :=
  let pairs := listProd FILES DOWNLOAD_FUNCTIONS
  match runPairs w times1 tmpName 0 pairs s with
  | (outs1, some e, s1) =>
      (Event.header mainHeader :: outs1.map Event.line, some e, s1)
  | (outs1, none, s1) =>
      let (rs, s2) := poolTasks w times2 tmpName 0 pairs s1
      (Event.header mainHeader :: outs1.map Event.line
         ++ Event.header poolHeader
            :: (rs.filterMap okOutcome).map Event.line,
       firstErr rs, s2)

/-- Spec-side reference for the digest: base64 of the MD5 of the entire file
content hashed at once (no chunking). -/
def md5_whole (w : World) (content : Bytes) : String :=
  w.b64 (w.md5 content)

/-- The digest verdict visible in a task's result: `some true` for a
throughput line (digest matched), `some false` for a mismatch line, `none`
when the iteration raised. -/
def digestVerdict : Except PyError IterOutcome → Option Bool
  | .ok (.throughputLine _ _ _ _) => some true
  | .ok (.mismatchLine _ _ _ _ _) => some false
  | .error _ => none

/-- Whether a printed line is a throughput line (digest matched). -/
def isMatchB : IterOutcome → Bool
  | .throughputLine _ _ _ _ => true
  | .mismatchLine _ _ _ _ _ => false

/-- An empty filesystem. -/
def emptyFs : FsState := fun _ => none

/-- A deterministic world for concrete runs: every HTTP GET returns an empty
body, subprocesses succeed writing empty files, and the digest encoder
returns the first file's expected digest for every input. -/
def cexWorld : World :=
  { net := fun _ => .ok []
    procExit := fun _ => 0
    procOut := fun _ => []
    md5 := id
    b64 := fun _ => "zqigvl5Envmi/GLc8yH51A==" }

/-- A world in which every HTTP GET raises a network error (subprocess
downloads would succeed, but the first strategy is library-based). -/
def failWorld : World :=
  { net := fun _ => .error (.netError "connection failed")
    procExit := fun _ => 0
    procOut := fun _ => []
    md5 := id
    b64 := fun _ => "x" }

/-- A world in which every download succeeds with empty content but the
encoded digest matches no expected digest: all iterations mismatch. -/
def mismatchWorld : World :=
  { net := fun _ => .ok []
    procExit := fun _ => 0
    procOut := fun _ => []
    md5 := id
    b64 := fun _ => "x" }

/-- A clock schedule with elapsed time 1 for every iteration. -/
def unitTimes : Nat → ℚ × ℚ := fun _ => (0, 1)

/-- A world in which every spawned subprocess exits with status 7 after
writing nothing useful (e.g. the url's host cannot be resolved). -/
def badProcWorld : World :=
  { net := fun _ => .ok []
    procExit := fun _ => 7
    procOut := fun _ => []
    md5 := id
    b64 := fun _ => "x" }

@[simp] lemma fsWrite_self (p : String) (c : Bytes) (s : FsState) :
    fsWrite p c s p = some c := by
  simp [fsWrite]

@[simp] lemma fsUnlink_self (p : String) (s : FsState) :
    fsUnlink p s p = none := by
  simp [fsUnlink]

lemma chunkAux_foldl (n : Nat) :
    ∀ (xs acc : List Nat) (k : Nat) (pre : Bytes),
      (chunkAux n xs acc k).foldl (· ++ ·) pre = pre ++ acc.reverse ++ xs := by
  intro xs
  induction xs with
  | nil =>
      intro acc k pre
      by_cases h : acc = [] <;> simp [chunkAux, h]
  | cons x xs ih =>
      intro acc k pre
      cases k with
      | zero => simp [chunkAux, ih]
      | succ k => simp [chunkAux, ih]

/-- Concatenating the fixed-size blocks of `l` in order recovers `l`: the
incremental hash accumulator absorbs exactly the whole content. -/
lemma chunksOf_foldl (n : Nat) (l : Bytes) :
    (chunksOf n l).foldl (· ++ ·) [] = l := by
  simpa using chunkAux_foldl n l [] n []

/-- `calc_md5` on a file with content `content` is the base64 MD5 of the
whole content at once. -/
lemma calc_md5_of_content (w : World) (fname : String) (s : FsState)
    (content : Bytes) (h : s fname = some content) :
    calc_md5 w fname s = .ok (md5_whole w content) := by
  simp [calc_md5, h, chunksOf_foldl, md5_whole]

/-- The `finally` clause of an iteration always unlinks the temporary file,
whether the body returned or raised. -/
lemma tryFinally_unlink {α : Type} (body : FsState → Except PyError (α × FsState))
    (tmp : String) (s : FsState) :
    ((tryFinally body (fsUnlink tmp) s).2) tmp = none := by
  unfold tryFinally
  cases body s with
  | error e => simp
  | ok v => simp

/-- The filesystem left by `bench_download` has no file at the temporary
path. -/
lemma bench_download_unlinks (w : World) (ts te : ℚ) (fd : FileDesc)
    (nf : NamedFunc) (tmp : String) (s : FsState) :
    ((bench_download w ts te fd nf tmp s).2) tmp = none := by
  unfold bench_download
  exact tryFinally_unlink _ tmp _

/-- The `bench` wrapper on a successful call returns the elapsed wall-clock
time `end - start`, discarding the wrapped function's return value. -/
lemma bench_ok {α : Type} (f : DownloadFunc α) (w : World) (url fname : String)
    (ts te : ℚ) (s : FsState) (a : α) (s1 : FsState)
    (h : f w url fname s = .ok (a, s1)) :
    bench f w url fname ts te s = .ok (te - ts, s1) := by
  simp [bench, h]

/-- The `bench` wrapper propagates an exception of the wrapped function. -/
lemma bench_error {α : Type} (f : DownloadFunc α) (w : World) (url fname : String)
    (ts te : ℚ) (s : FsState) (e : PyError)
    (h : f w url fname s = .error e) :
    bench f w url fname ts te s = .error e := by
  simp [bench, h]

/-- An iteration whose download raises: the exception propagates out of
`bench_download` (no line is printed). -/
lemma bench_download_dl_error (w : World) (ts te : ℚ) (fd : FileDesc)
    (nf : NamedFunc) (tmp : String) (s : FsState) (e : PyError)
    (h : nf.fn w fd.url tmp ts te (fsWrite tmp [] s) = .error e) :
    (bench_download w ts te fd nf tmp s).1 = .error e := by
  simp [bench_download, tryFinally, h]

/-- An iteration whose digest differs from the expected one: the mismatch
diagnostic line is the unique output, regardless of the elapsed time, and the
temporary file is unlinked. -/
lemma bench_download_mismatch (w : World) (ts te : ℚ) (fd : FileDesc)
    (nf : NamedFunc) (tmp : String) (s : FsState) (t : ℚ) (s1 : FsState)
    (d : String)
    (hdl : nf.fn w fd.url tmp ts te (fsWrite tmp [] s) = .ok (t, s1))
    (hmd : calc_md5 w tmp s1 = .ok d) (hne : d ≠ fd.md5) :
    bench_download w ts te fd nf tmp s
      = (.ok (.mismatchLine nf.name fd.name fd.size d fd.md5), fsUnlink tmp s1) := by
  simp [bench_download, tryFinally, hdl, hmd, hne]

/-- An iteration whose digest matches and whose elapsed time is nonzero: the
throughput line is the unique output, with byte count the file's length on
the filesystem and speed the byte count divided by the elapsed time. -/
lemma bench_download_match (w : World) (ts te : ℚ) (fd : FileDesc)
    (nf : NamedFunc) (tmp : String) (s : FsState) (t : ℚ) (s1 : FsState)
    (content : Bytes)
    (hdl : nf.fn w fd.url tmp ts te (fsWrite tmp [] s) = .ok (t, s1))
    (hc : s1 tmp = some content)
    (hmd : calc_md5 w tmp s1 = .ok fd.md5) (ht : t ≠ 0) :
    bench_download w ts te fd nf tmp s
      = (.ok (.throughputLine nf.name t content.length ((content.length : ℚ) / t)),
         fsUnlink tmp s1) := by
  simp [bench_download, tryFinally, hdl, hmd, file_size, hc, pyDiv, ht]

/-- An iteration whose digest matches but whose elapsed time is zero: the
unguarded division raises `ZeroDivisionError` and no line is printed. -/
lemma bench_download_match_zero (w : World) (ts te : ℚ) (fd : FileDesc)
    (nf : NamedFunc) (tmp : String) (s : FsState) (t : ℚ) (s1 : FsState)
    (content : Bytes)
    (hdl : nf.fn w fd.url tmp ts te (fsWrite tmp [] s) = .ok (t, s1))
    (hc : s1 tmp = some content)
    (hmd : calc_md5 w tmp s1 = .ok fd.md5) (ht : t = 0) :
    (bench_download w ts te fd nf tmp s).1 = .error .zeroDivisionError := by
  simp [bench_download, tryFinally, hdl, hmd, file_size, hc, pyDiv, ht]

/-- `C7`: for every file on the filesystem, the digest computed by reading
the file in fixed-size 1 MiB blocks and feeding each block to the incremental
hash accumulator (`calc_md5`) equals the base64-encoded digest of the entire
file content hashed at once. -/
theorem c7_chunked_md5_eq_whole (w : World) (fname : String) (s : FsState)
    (content : Bytes) (h : s fname = some content) :
    calc_md5 w fname s = .ok (md5_whole w content) :=
  calc_md5_of_content w fname s content h

theorem c7_witness :
    (fsWrite "tmp" [7, 7, 7] emptyFs) "tmp" = some [7, 7, 7] ∧
      calc_md5 cexWorld "tmp" (fsWrite "tmp" [7, 7, 7] emptyFs)
        = .ok (md5_whole cexWorld [7, 7, 7]) :=
  ⟨by simp, c7_chunked_md5_eq_whole cexWorld "tmp" (fsWrite "tmp" [7, 7, 7] emptyFs)
    [7, 7, 7] (by simp)⟩

/-- `C3`: on every exit path of a benchmark iteration — success, digest
mismatch, or a propagating strategy/hash error — the temporary file has been
deleted: it does not exist on the filesystem `bench_download` leaves
behind. -/
theorem c3_temp_file_always_removed (w : World) (ts te : ℚ) (fd : FileDesc)
    (nf : NamedFunc) (tmp : String) (s : FsState) :
    ((bench_download w ts te fd nf tmp s).2) tmp = none :=
  bench_download_unlinks w ts te fd nf tmp s

/-- Appending chunks one by one to the file at `p` accumulates their
concatenation. -/
lemma foldl_fsAppend (p : String) :
    ∀ (cs : List Bytes) (s : FsState) (acc : Bytes), s p = some acc →
      (cs.foldl (fun st c => fsAppend p c st) s) p = some (cs.foldl (· ++ ·) acc) := by
  intro cs
  induction cs with
  | nil => intro s acc h; simpa using h
  | cons c cs ih =>
      intro s acc h
      simp only [List.foldl_cons]
      apply ih
      simp [fsAppend, h]

/-- Every registered strategy is deterministic in the world: two invocations
with the same world and url (but different clock readings and different
incoming filesystems) either both raise the same error, or both succeed
returning their own `end - start` and leaving the same downloaded content in
the destination file. -/
lemma strategy_run_pair (nf : NamedFunc) (hnf : nf ∈ DOWNLOAD_FUNCTIONS)
    (w : World) (url tmp : String) (ts te ts' te' : ℚ) (s s' : FsState) :
    (∃ e, nf.fn w url tmp ts te (fsWrite tmp [] s) = .error e
        ∧ nf.fn w url tmp ts' te' (fsWrite tmp [] s') = .error e)
    ∨ (∃ content s1 s1',
        nf.fn w url tmp ts te (fsWrite tmp [] s) = .ok (te - ts, s1)
        ∧ nf.fn w url tmp ts' te' (fsWrite tmp [] s') = .ok (te' - ts', s1')
        ∧ s1 tmp = some content ∧ s1' tmp = some content) := by
  fin_cases hnf
  · cases hnet : w.net url with
    | error e =>
        exact .inl ⟨e, by simp [bench, requests_raw_shutil, hnet],
          by simp [bench, requests_raw_shutil, hnet]⟩
    | ok body =>
        refine .inr ⟨body, fsWrite tmp body (fsWrite tmp [] s),
          fsWrite tmp body (fsWrite tmp [] s'),
          by simp [bench, requests_raw_shutil, hnet],
          by simp [bench, requests_raw_shutil, hnet], by simp, by simp⟩
  · cases hnet : w.net url with
    | error e =>
        exact .inl ⟨e, by simp [bench, requests_chunks, hnet],
          by simp [bench, requests_chunks, hnet]⟩
    | ok body =>
        refine .inr ⟨body,
          (chunksOf (128 * 1024) body).foldl (fun st c => fsAppend tmp c st)
            (fsWrite tmp [] (fsWrite tmp [] s)),
          (chunksOf (128 * 1024) body).foldl (fun st c => fsAppend tmp c st)
            (fsWrite tmp [] (fsWrite tmp [] s')),
          by simp [bench, requests_chunks, hnet],
          by simp [bench, requests_chunks, hnet], ?_, ?_⟩
        · rw [foldl_fsAppend tmp (chunksOf (128 * 1024) body)
            (fsWrite tmp [] (fsWrite tmp [] s)) [] (by simp), chunksOf_foldl]
        · rw [foldl_fsAppend tmp (chunksOf (128 * 1024) body)
            (fsWrite tmp [] (fsWrite tmp [] s')) [] (by simp), chunksOf_foldl]
  · by_cases hz : w.procExit ["wget", "-q", "-O", tmp, url] = 0
    · refine .inr ⟨w.procOut ["wget", "-q", "-O", tmp, url],
        fsWrite tmp (w.procOut ["wget", "-q", "-O", tmp, url]) (fsWrite tmp [] s),
        fsWrite tmp (w.procOut ["wget", "-q", "-O", tmp, url]) (fsWrite tmp [] s'),
        by simp [bench, wget_subprocess, check_call, hz],
        by simp [bench, wget_subprocess, check_call, hz], by simp, by simp⟩
    · exact .inl ⟨.calledProcessError (w.procExit ["wget", "-q", "-O", tmp, url]),
        by simp [bench, wget_subprocess, check_call, hz],
        by simp [bench, wget_subprocess, check_call, hz]⟩
  · by_cases hz : w.procExit ["curl", "-s", "-o", tmp, url] = 0
    · refine .inr ⟨w.procOut ["curl", "-s", "-o", tmp, url],
        fsWrite tmp (w.procOut ["curl", "-s", "-o", tmp, url]) (fsWrite tmp [] s),
        fsWrite tmp (w.procOut ["curl", "-s", "-o", tmp, url]) (fsWrite tmp [] s'),
        by simp [bench, curl_subprocess, check_call, hz],
        by simp [bench, curl_subprocess, check_call, hz], by simp, by simp⟩
    · exact .inl ⟨.calledProcessError (w.procExit ["curl", "-s", "-o", tmp, url]),
        by simp [bench, curl_subprocess, check_call, hz],
        by simp [bench, curl_subprocess, check_call, hz]⟩

/-- If an iteration of a registered strategy produced a line, then the same
iteration re-run with different clock readings (with nonzero elapsed time)
and a different incoming filesystem produces a line with the same
digest-match verdict. -/
lemma verdict_transfer (nf : NamedFunc) (hnf : nf ∈ DOWNLOAD_FUNCTIONS)
    (w : World) (fd : FileDesc) (tmp : String) (ts te ts' te' : ℚ)
    (s s' : FsState) (out : IterOutcome)
    (ht' : te' - ts' ≠ 0)
    (h : (bench_download w ts te fd nf tmp s).1 = .ok out) :
    digestVerdict (bench_download w ts' te' fd nf tmp s').1 = some (isMatchB out) := by
  rcases strategy_run_pair nf hnf w fd.url tmp ts te ts' te' s s' with
    ⟨e, he, he'⟩ | ⟨content, s1, s1', hok, hok', hc, hc'⟩
  · rw [bench_download_dl_error w ts te fd nf tmp s e he] at h
    exact absurd h (by simp)
  · have hmd := calc_md5_of_content w tmp s1 content hc
    have hmd' := calc_md5_of_content w tmp s1' content hc'
    by_cases hd : md5_whole w content = fd.md5
    · have hz : te - ts ≠ 0 := by
        intro hzz
        rw [bench_download_match_zero w ts te fd nf tmp s (te - ts) s1 content
          hok hc (hmd.trans (by rw [hd])) hzz] at h
        exact absurd h (by simp)
      rw [bench_download_match w ts te fd nf tmp s (te - ts) s1 content hok hc
        (hmd.trans (by rw [hd])) hz] at h
      simp at h
      subst h
      rw [bench_download_match w ts' te' fd nf tmp s' (te' - ts') s1' content
        hok' hc' (hmd'.trans (by rw [hd])) ht']
      simp [digestVerdict, isMatchB]
    · rw [bench_download_mismatch w ts te fd nf tmp s (te - ts) s1
        (md5_whole w content) hok hmd hd] at h
      simp at h
      subst h
      rw [bench_download_mismatch w ts' te' fd nf tmp s' (te' - ts') s1'
        (md5_whole w content) hok' hmd' hd]
      simp [digestVerdict, isMatchB]

/-- The single-worker pool pass computes, task by task and in the same order,
the same digest verdicts as an error-free direct pass over the same pair
list, whatever its clock readings (as long as its elapsed times are nonzero)
and its incoming filesystem. -/
lemma pass_equiv (w : World) (t1 t2 : Nat → ℚ × ℚ) (tmp : String)
    (h2 : ∀ k, (t2 k).2 - (t2 k).1 ≠ 0) :
    ∀ (pairs : List (FileDesc × NamedFunc)) (i j : Nat) (s1 s2 : FsState),
      (∀ p ∈ pairs, p.2 ∈ DOWNLOAD_FUNCTIONS) →
      (runPairs w t1 tmp i pairs s1).2.1 = none →
      (poolTasks w t2 tmp j pairs s2).1.map digestVerdict
        = (runPairs w t1 tmp i pairs s1).1.map (fun o => some (isMatchB o)) := by
  intro pairs
  induction pairs with
  | nil => intro i j s1 s2 _ _; simp [runPairs, poolTasks]
  | cons p rest ih =>
      intro i j s1 s2 hmem hnone
      rcases hbd : bench_download w (t1 i).1 (t1 i).2 p.1 p.2 tmp s1 with ⟨r, sA⟩
      cases r with
      | error e =>
          exfalso
          have hrun : runPairs w t1 tmp i (p :: rest) s1 = ([], some e, sA) := by
            simp only [runPairs]
            rw [hbd]
          rw [hrun] at hnone
          simp at hnone
      | ok out =>
          rcases hrec : runPairs w t1 tmp (i + 1) rest sA with ⟨outs, err, sB⟩
          have hrun : runPairs w t1 tmp i (p :: rest) s1 = (out :: outs, err, sB) := by
            simp only [runPairs]
            rw [hbd]
            simp [hrec]
          rw [hrun] at hnone
          have hpool : (poolTasks w t2 tmp j (p :: rest) s2).1
              = (bench_download w (t2 j).1 (t2 j).2 p.1 p.2 tmp s2).1
                :: (poolTasks w t2 tmp (j + 1) rest
                    (bench_download w (t2 j).1 (t2 j).2 p.1 p.2 tmp s2).2).1 := rfl
          rw [hrun, hpool]
          simp only [List.map_cons]
          have hhead : (bench_download w (t1 i).1 (t1 i).2 p.1 p.2 tmp s1).1
              = .ok out := by rw [hbd]
          have htail : (runPairs w t1 tmp (i + 1) rest sA).2.1 = none := by
            rw [hrec]; exact hnone
          rw [verdict_transfer p.2 (hmem p (List.mem_cons_self p rest)) w p.1 tmp
            (t1 i).1 (t1 i).2 (t2 j).1 (t2 j).2 s1 s2 out (h2 j) hhead]
          rw [ih (i + 1) (j + 1) sA _
            (fun q hq => hmem q (List.mem_cons_of_mem p hq)) htail]
          rw [hrec]

/-- Every pair of the cross product has its strategy in the registry. -/
lemma listProd_snd_mem :
    ∀ p ∈ listProd FILES DOWNLOAD_FUNCTIONS, p.2 ∈ DOWNLOAD_FUNCTIONS := by
  intro p hp
  simp only [listProd, List.mem_flatMap, List.mem_map] at hp
  rcases hp with ⟨a, _, b, hb, rfl⟩
  exact hb

/-- `C2` (amended): for an iteration whose download and digest computation
complete, the output is fully characterized: on digest mismatch the single
mismatch diagnostic line (strategy name, file name, size label, both digests)
is produced, with no throughput computed, regardless of the elapsed time; on
digest match with nonzero elapsed time the single throughput line is
produced; on digest match with zero elapsed time the iteration raises
`ZeroDivisionError` and produces no line.  Never both lines. -/
theorem c2_iteration_output_characterization
    (w : World) (ts te : ℚ) (fd : FileDesc) (nf : NamedFunc) (tmp : String)
    (s : FsState) (t : ℚ) (s1 : FsState) (content : Bytes) (d : String)
    (hdl : nf.fn w fd.url tmp ts te (fsWrite tmp [] s) = .ok (t, s1))
    (hc : s1 tmp = some content)
    (hmd : calc_md5 w tmp s1 = .ok d) :
    (d ≠ fd.md5 →
      (bench_download w ts te fd nf tmp s).1
        = .ok (.mismatchLine nf.name fd.name fd.size d fd.md5))
    ∧ (d = fd.md5 → t ≠ 0 →
      (bench_download w ts te fd nf tmp s).1
        = .ok (.throughputLine nf.name t content.length ((content.length : ℚ) / t)))
    ∧ (d = fd.md5 → t = 0 →
      (bench_download w ts te fd nf tmp s).1 = .error .zeroDivisionError) := by
  refine ⟨fun hne => ?_, fun heq ht => ?_, fun heq ht => ?_⟩
  · rw [bench_download_mismatch w ts te fd nf tmp s t s1 d hdl hmd hne]
  · subst heq
    rw [bench_download_match w ts te fd nf tmp s t s1 content hdl hc hmd ht]
  · subst heq
    exact bench_download_match_zero w ts te fd nf tmp s t s1 content hdl hc hmd ht

theorem c2_witness :
    (bench_download mismatchWorld 0 1 (FILES.get ⟨0, by decide⟩)
        (DOWNLOAD_FUNCTIONS.get ⟨0, by decide⟩) "tmp" emptyFs).1
      = .ok (.mismatchLine "requests_raw_shutil" "LC80440342016259LGN00_BQA.TIF"
          "3.2MB" "x" "zqigvl5Envmi/GLc8yH51A==") :=
  (c2_iteration_output_characterization mismatchWorld 0 1 (FILES.get ⟨0, by decide⟩)
      (DOWNLOAD_FUNCTIONS.get ⟨0, by decide⟩) "tmp" emptyFs (1 - 0)
      (fsWrite "tmp" [] (fsWrite "tmp" [] emptyFs)) [] "x" rfl rfl rfl).1
    (by decide)

/-- `C2` counterexample: with every oracle succeeding, a matching digest, and
wall-clock readings `start = end = 0`, the iteration of the first file with
the first registered strategy completes its download (conjunct 1) and its
digest computation with a matching digest (conjunct 2), its elapsed time is
zero (conjunct 3), yet the iteration produces no output line at all: it
raises `ZeroDivisionError` (conjunct 4), refuting "exactly one output line is
produced". -/
theorem c2_counterexample :
    (DOWNLOAD_FUNCTIONS.get ⟨0, by decide⟩).fn cexWorld
        (FILES.get ⟨0, by decide⟩).url "tmp" 0 0 (fsWrite "tmp" [] emptyFs)
      = .ok (0 - 0, fsWrite "tmp" [] (fsWrite "tmp" [] emptyFs))
    ∧ calc_md5 cexWorld "tmp" (fsWrite "tmp" [] (fsWrite "tmp" [] emptyFs))
      = .ok (FILES.get ⟨0, by decide⟩).md5
    ∧ (0 - 0 : ℚ) = 0
    ∧ (bench_download cexWorld 0 0 (FILES.get ⟨0, by decide⟩)
        (DOWNLOAD_FUNCTIONS.get ⟨0, by decide⟩) "tmp" emptyFs).1
      = .error .zeroDivisionError :=
  ⟨rfl, rfl, by norm_num,
    bench_download_match_zero cexWorld 0 0 (FILES.get ⟨0, by decide⟩)
      (DOWNLOAD_FUNCTIONS.get ⟨0, by decide⟩) "tmp" emptyFs (0 - 0)
      (fsWrite "tmp" [] (fsWrite "tmp" [] emptyFs)) [] rfl rfl rfl (by norm_num)⟩

/-- `C4`: for an iteration whose digest matches (and whose elapsed time is
nonzero, so the division is defined), the byte count is the downloaded file's
length on the filesystem (`file_size`), the reported elapsed time is
`end - start` around the strategy invocation, and the reported throughput
equals byte count divided by elapsed seconds. -/
theorem c4_throughput_formula
    (w : World) (ts te : ℚ) (fd : FileDesc) (nm : String) (f : DownloadFunc Unit)
    (tmp : String) (s : FsState) (a : Unit) (s1 : FsState) (content : Bytes)
    (hdl : f w fd.url tmp (fsWrite tmp [] s) = .ok (a, s1))
    (hc : s1 tmp = some content)
    (hmd : calc_md5 w tmp s1 = .ok fd.md5)
    (ht : te - ts ≠ 0) :
    file_size tmp s1 = .ok content.length
    ∧ (bench_download w ts te fd ⟨nm, bench f⟩ tmp s).1
      = .ok (.throughputLine nm (te - ts) content.length
          ((content.length : ℚ) / (te - ts))) := by
  refine ⟨by simp [file_size, hc], ?_⟩
  rw [bench_download_match w ts te fd ⟨nm, bench f⟩ tmp s (te - ts) s1 content
    (bench_ok f w fd.url tmp ts te (fsWrite tmp [] s) a s1 hdl) hc hmd ht]

theorem c4_witness :
    file_size "tmp" (fsWrite "tmp" [] (fsWrite "tmp" [] emptyFs)) = .ok 0
    ∧ (bench_download cexWorld 0 1 (FILES.get ⟨0, by decide⟩)
        ⟨"requests_raw_shutil", bench requests_raw_shutil⟩ "tmp" emptyFs).1
      = .ok (.throughputLine "requests_raw_shutil" (1 - 0)
          (List.length ([] : Bytes)) ((List.length ([] : Bytes) : ℚ) / (1 - 0))) :=
  c4_throughput_formula cexWorld 0 1 (FILES.get ⟨0, by decide⟩)
    "requests_raw_shutil" requests_raw_shutil "tmp" emptyFs ()
    (fsWrite "tmp" [] (fsWrite "tmp" [] emptyFs)) [] rfl rfl rfl (by norm_num)

/-- `C9`: the throughput division has no zero guard: for an iteration whose
digest matches, a zero elapsed time makes the iteration fail with a division
error, while a strictly positive elapsed time makes the division well-defined
and the throughput line is produced. -/
theorem c9_zero_elapsed_division
    (w : World) (ts te : ℚ) (fd : FileDesc) (nm : String) (f : DownloadFunc Unit)
    (tmp : String) (s : FsState) (a : Unit) (s1 : FsState) (content : Bytes)
    (hdl : f w fd.url tmp (fsWrite tmp [] s) = .ok (a, s1))
    (hc : s1 tmp = some content)
    (hmd : calc_md5 w tmp s1 = .ok fd.md5) :
    (te - ts = 0 →
      (bench_download w ts te fd ⟨nm, bench f⟩ tmp s).1 = .error .zeroDivisionError)
    ∧ (0 < te - ts →
      (bench_download w ts te fd ⟨nm, bench f⟩ tmp s).1
        = .ok (.throughputLine nm (te - ts) content.length
            ((content.length : ℚ) / (te - ts)))) := by
  have hfn := bench_ok f w fd.url tmp ts te (fsWrite tmp [] s) a s1 hdl
  refine ⟨fun ht => ?_, fun ht => ?_⟩
  · exact bench_download_match_zero w ts te fd ⟨nm, bench f⟩ tmp s (te - ts) s1
      content hfn hc hmd ht
  · rw [bench_download_match w ts te fd ⟨nm, bench f⟩ tmp s (te - ts) s1 content
      hfn hc hmd ht.ne']

theorem c9_witness :
    (bench_download cexWorld 0 0 (FILES.get ⟨0, by decide⟩)
        ⟨"requests_raw_shutil", bench requests_raw_shutil⟩ "tmp" emptyFs).1
      = .error .zeroDivisionError :=
  (c9_zero_elapsed_division cexWorld 0 0 (FILES.get ⟨0, by decide⟩)
      "requests_raw_shutil" requests_raw_shutil "tmp" emptyFs ()
      (fsWrite "tmp" [] (fsWrite "tmp" [] emptyFs)) [] rfl rfl rfl).1
    (by norm_num)

/-- `C8`: each external-process strategy raises `CalledProcessError` when the
spawned tool exits with non-zero status, and the benchmark iteration running
it surfaces that failure as a propagating error (no success line is
produced). -/
theorem c8_subprocess_nonzero_exit_raises
    (w : World) (ts te : ℚ) (fd : FileDesc) (tmp : String) (s : FsState)
    (c c' : Nat)
    (h1 : w.procExit ["wget", "-q", "-O", tmp, fd.url] = c) (hc : c ≠ 0)
    (h2 : w.procExit ["curl", "-s", "-o", tmp, fd.url] = c') (hc' : c' ≠ 0) :
    wget_subprocess w fd.url tmp s = .error (.calledProcessError c)
    ∧ curl_subprocess w fd.url tmp s = .error (.calledProcessError c')
    ∧ (bench_download w ts te fd ⟨"wget_subprocess", bench wget_subprocess⟩
        tmp s).1 = .error (.calledProcessError c)
    ∧ (bench_download w ts te fd ⟨"curl_subprocess", bench curl_subprocess⟩
        tmp s).1 = .error (.calledProcessError c') := by
  have hw : ∀ s' : FsState, wget_subprocess w fd.url tmp s' = .error (.calledProcessError c) := by
    intro s'; simp [wget_subprocess, check_call, h1, hc]
  have hcu : ∀ s' : FsState, curl_subprocess w fd.url tmp s' = .error (.calledProcessError c') := by
    intro s'; simp [curl_subprocess, check_call, h2, hc']
  refine ⟨hw s, hcu s, ?_, ?_⟩
  · exact bench_download_dl_error w ts te fd _ tmp s _
      (bench_error wget_subprocess w fd.url tmp ts te _ _ (hw _))
  · exact bench_download_dl_error w ts te fd _ tmp s _
      (bench_error curl_subprocess w fd.url tmp ts te _ _ (hcu _))

theorem c8_witness :
    wget_subprocess badProcWorld (FILES.get ⟨0, by decide⟩).url "tmp" emptyFs
      = .error (.calledProcessError 7)
    ∧ curl_subprocess badProcWorld (FILES.get ⟨0, by decide⟩).url "tmp" emptyFs
      = .error (.calledProcessError 7)
    ∧ (bench_download badProcWorld 0 1 (FILES.get ⟨0, by decide⟩)
        ⟨"wget_subprocess", bench wget_subprocess⟩ "tmp" emptyFs).1
      = .error (.calledProcessError 7)
    ∧ (bench_download badProcWorld 0 1 (FILES.get ⟨0, by decide⟩)
        ⟨"curl_subprocess", bench curl_subprocess⟩ "tmp" emptyFs).1
      = .error (.calledProcessError 7) :=
  c8_subprocess_nonzero_exit_raises badProcWorld 0 1 (FILES.get ⟨0, by decide⟩)
    "tmp" emptyFs 7 7 rfl (by decide) rfl (by decide)

/-- `C10`: the registry holds exactly the four `bench`-wrapped download
functions, in definition order and with their source names; the `bench`
wrapper discards the wrapped function's return value and returns
`end - start`; and when the runner prints a throughput line its elapsed-time
field is exactly the value returned by the wrapper. -/
theorem c10_bench_registry :
    DOWNLOAD_FUNCTIONS
      = [ ⟨"requests_raw_shutil", bench requests_raw_shutil⟩,
          ⟨"requests_chunks", bench requests_chunks⟩,
          ⟨"wget_subprocess", bench wget_subprocess⟩,
          ⟨"curl_subprocess", bench curl_subprocess⟩ ]
    ∧ DOWNLOAD_FUNCTIONS.map NamedFunc.name
      = ["requests_raw_shutil", "requests_chunks", "wget_subprocess",
         "curl_subprocess"]
    ∧ DOWNLOAD_FUNCTIONS.length = 4
    ∧ (∀ (α : Type) (f : DownloadFunc α) (w : World) (url fname : String)
        (ts te : ℚ) (s : FsState) (a : α) (s1 : FsState),
        f w url fname s = .ok (a, s1) →
          bench f w url fname ts te s = .ok (te - ts, s1))
    ∧ (∀ (w : World) (ts te : ℚ) (fd : FileDesc) (nf : NamedFunc)
        (tmp : String) (s : FsState) (t : ℚ) (s1 : FsState) (content : Bytes),
        nf.fn w fd.url tmp ts te (fsWrite tmp [] s) = .ok (t, s1) →
        s1 tmp = some content →
        calc_md5 w tmp s1 = .ok fd.md5 → t ≠ 0 →
          (bench_download w ts te fd nf tmp s).1
            = .ok (.throughputLine nf.name t content.length
                ((content.length : ℚ) / t))) := by
  refine ⟨rfl, rfl, rfl, ?_, ?_⟩
  · intro α f w url fname ts te s a s1 h
    exact bench_ok f w url fname ts te s a s1 h
  · intro w ts te fd nf tmp s t s1 content hdl hcon hmd ht
    rw [bench_download_match w ts te fd nf tmp s t s1 content hdl hcon hmd ht]

theorem c10_witness :
    bench (fun _ _ _ st => .ok (99, st) : DownloadFunc Nat) cexWorld
      "u" "f" 3 5 emptyFs = .ok (5 - 3, emptyFs) :=
  c10_bench_registry.2.2.2.1 Nat (fun _ _ _ st => .ok (99, st)) cexWorld
    "u" "f" 3 5 emptyFs 99 emptyFs rfl

/-- `C1` (amended): when a strategy invocation fails, the error aborts that
iteration (its temporary file is still removed and no line is printed for
it), but it does not leave the run intact: the main-thread pass executes none
of the remaining pairs and the whole run terminates with that error. -/
theorem c1_strategy_error_aborts_run
    (w : World) (times : Nat → ℚ × ℚ) (tmp : String)
    (p : FileDesc × NamedFunc) (rest : List (FileDesc × NamedFunc))
    (s : FsState) (e : PyError) (s1 : FsState) (i : Nat)
    (h : bench_download w (times i).1 (times i).2 p.1 p.2 tmp s = (.error e, s1)) :
    runPairs w times tmp i (p :: rest) s = ([], some e, s1) ∧ s1 tmp = none := by
  constructor
  · simp only [runPairs]
    rw [h]
  · have h2 : (bench_download w (times i).1 (times i).2 p.1 p.2 tmp s).2 = s1 :=
      congrArg Prod.snd h
    rw [← h2]
    exact bench_download_unlinks w (times i).1 (times i).2 p.1 p.2 tmp s

theorem c1_witness :
    runPairs failWorld unitTimes "tmp" 0
        [(FILES.get ⟨0, by decide⟩, DOWNLOAD_FUNCTIONS.get ⟨0, by decide⟩)] emptyFs
      = ([], some (.netError "connection failed"),
         fsUnlink "tmp" (fsWrite "tmp" [] emptyFs))
    ∧ (fsUnlink "tmp" (fsWrite "tmp" [] emptyFs)) "tmp" = none :=
  c1_strategy_error_aborts_run failWorld unitTimes "tmp"
    (FILES.get ⟨0, by decide⟩, DOWNLOAD_FUNCTIONS.get ⟨0, by decide⟩) [] emptyFs
    (.netError "connection failed") (fsUnlink "tmp" (fsWrite "tmp" [] emptyFs)) 0 rfl

/-- `C1` counterexample: in a world where the first strategy invocation fails
with a network error, the full runner prints only the first section header —
no line for any of the remaining 11 (file, strategy) pairs, no second pass —
and the run terminates with the error, refuting "the runner continues with
the remaining (file, strategy) pairs without crashing the overall run". -/
theorem c1_counterexample :
    (run_download_bench failWorld unitTimes unitTimes "tmp" emptyFs).1
      = [Event.header mainHeader]
    ∧ (run_download_bench failWorld unitTimes unitTimes "tmp" emptyFs).2.1
      = some (.netError "connection failed") :=
  ⟨by decide, by decide⟩

/-- `C5`: the second pass dispatches the same benchmark operation over the
same (file, strategy) pair sequence through the width-one pool, so for the
same world (identical downloaded content) it produces, pair by pair, the same
digest-match/mismatch outcome as an error-free direct pass; the dispatch
mechanism (and its different clock readings) affects only timing, not the
verdicts. -/
theorem c5_pool_pass_same_verdicts
    (w : World) (t1 t2 : Nat → ℚ × ℚ) (tmp : String) (s1 s2 : FsState)
    (h2 : ∀ k, (t2 k).2 - (t2 k).1 ≠ 0)
    (hok : (runPairs w t1 tmp 0 (listProd FILES DOWNLOAD_FUNCTIONS) s1).2.1 = none) :
    (poolTasks w t2 tmp 0 (listProd FILES DOWNLOAD_FUNCTIONS) s2).1.map digestVerdict
      = (runPairs w t1 tmp 0 (listProd FILES DOWNLOAD_FUNCTIONS) s1).1.map
          (fun o => some (isMatchB o)) :=
  pass_equiv w t1 t2 tmp h2 (listProd FILES DOWNLOAD_FUNCTIONS) 0 0 s1 s2
    listProd_snd_mem hok

theorem c5_witness :
    (poolTasks mismatchWorld unitTimes "tmp" 0 (listProd FILES DOWNLOAD_FUNCTIONS)
        emptyFs).1.map digestVerdict
      = (runPairs mismatchWorld unitTimes "tmp" 0 (listProd FILES DOWNLOAD_FUNCTIONS)
          emptyFs).1.map (fun o => some (isMatchB o)) :=
  c5_pool_pass_same_verdicts mismatchWorld unitTimes unitTimes "tmp" emptyFs emptyFs
    (fun _ => by norm_num [unitTimes]) (by decide)

/-- `C6`: the runner prints the first-pass header and then benchmarks the
pairs of `itertools.product(FILES, DOWNLOAD_FUNCTIONS)` in cross-product
order (all four strategies for file 1, then file 2, then file 3), then (when
the first pass raised no error) prints the second-pass header and dispatches
the same pair sequence once more through the single-worker pool: the whole
sequence runs exactly twice. -/
theorem c6_cross_product_order_two_passes
    (w : World) (t1 t2 : Nat → ℚ × ℚ) (tmp : String) (s : FsState)
    (h : (runPairs w t1 tmp 0 (listProd FILES DOWNLOAD_FUNCTIONS) s).2.1 = none) :
    (run_download_bench w t1 t2 tmp s).1
      = Event.header mainHeader
          :: (runPairs w t1 tmp 0 (listProd FILES DOWNLOAD_FUNCTIONS) s).1.map
              Event.line
        ++ Event.header poolHeader
          :: ((poolTasks w t2 tmp 0 (listProd FILES DOWNLOAD_FUNCTIONS)
                (runPairs w t1 tmp 0 (listProd FILES DOWNLOAD_FUNCTIONS) s).2.2).1.filterMap
                okOutcome).map Event.line
    ∧ (listProd FILES DOWNLOAD_FUNCTIONS).map (fun q => (q.1.name, q.2.name))
      = [("LC80440342016259LGN00_BQA.TIF", "requests_raw_shutil"),
         ("LC80440342016259LGN00_BQA.TIF", "requests_chunks"),
         ("LC80440342016259LGN00_BQA.TIF", "wget_subprocess"),
         ("LC80440342016259LGN00_BQA.TIF", "curl_subprocess"),
         ("LC80440342016259LGN00_B1.TIF", "requests_raw_shutil"),
         ("LC80440342016259LGN00_B1.TIF", "requests_chunks"),
         ("LC80440342016259LGN00_B1.TIF", "wget_subprocess"),
         ("LC80440342016259LGN00_B1.TIF", "curl_subprocess"),
         ("LC80440342016259LGN00_B8.TIF", "requests_raw_shutil"),
         ("LC80440342016259LGN00_B8.TIF", "requests_chunks"),
         ("LC80440342016259LGN00_B8.TIF", "wget_subprocess"),
         ("LC80440342016259LGN00_B8.TIF", "curl_subprocess")] := by
  constructor
  · unfold run_download_bench
    dsimp only
    rcases hrp : runPairs w t1 tmp 0 (listProd FILES DOWNLOAD_FUNCTIONS) s with
      ⟨outs, err, s1⟩
    rw [hrp] at h
    have herr : err = none := h
    subst herr
    rfl
  · decide

theorem c6_witness :
    (run_download_bench mismatchWorld unitTimes unitTimes "tmp" emptyFs).1
      = Event.header mainHeader
          :: (runPairs mismatchWorld unitTimes "tmp" 0
              (listProd FILES DOWNLOAD_FUNCTIONS) emptyFs).1.map Event.line
        ++ Event.header poolHeader
          :: ((poolTasks mismatchWorld unitTimes "tmp" 0
                (listProd FILES DOWNLOAD_FUNCTIONS)
                (runPairs mismatchWorld unitTimes "tmp" 0
                  (listProd FILES DOWNLOAD_FUNCTIONS) emptyFs).2.2).1.filterMap
                okOutcome).map Event.line
    ∧ (listProd FILES DOWNLOAD_FUNCTIONS).map (fun q => (q.1.name, q.2.name))
      = [("LC80440342016259LGN00_BQA.TIF", "requests_raw_shutil"),
         ("LC80440342016259LGN00_BQA.TIF", "requests_chunks"),
         ("LC80440342016259LGN00_BQA.TIF", "wget_subprocess"),
         ("LC80440342016259LGN00_BQA.TIF", "curl_subprocess"),
         ("LC80440342016259LGN00_B1.TIF", "requests_raw_shutil"),
         ("LC80440342016259LGN00_B1.TIF", "requests_chunks"),
         ("LC80440342016259LGN00_B1.TIF", "wget_subprocess"),
         ("LC80440342016259LGN00_B1.TIF", "curl_subprocess"),
         ("LC80440342016259LGN00_B8.TIF", "requests_raw_shutil"),
         ("LC80440342016259LGN00_B8.TIF", "requests_chunks"),
         ("LC80440342016259LGN00_B8.TIF", "wget_subprocess"),
         ("LC80440342016259LGN00_B8.TIF", "curl_subprocess")] :=
  c6_cross_product_order_two_passes mismatchWorld unitTimes unitTimes "tmp" emptyFs
    (by decide)

end DownloadBench
